import Mathlib

/-
  A shallow embedding in Lean 4 of the password-reset batch pipeline
  implemented in src/reset_passwd.py, together with theorems settling the
  specification claims about it.

  Modelling conventions:
  * Python strings are Lean `String`s, csv rows are `List String`.
  * External effects (browser page behaviour, HTTP transport) are modelled
    by explicit environment records (`PageEnv`, `TransportEnv`); a Python
    exception raised inside the executor's try block is modelled by the
    explicit outcome constructor `BodyResult.exn`.
  * Calls to the status write-back are recorded as `ReportCall` values in
    the executor's output trace; the write-back itself (`requests.post`,
    lines 282-309) is modelled by `update_status_in_sheet` over a
    `TransportEnv` describing the transport's behaviour.
-/

/-- Python substring containment `needle in hay`, on character lists. -/
def charsContain (needle : List Char) : List Char → Bool
  | [] => needle.isEmpty
  | c :: rest => needle.isPrefixOf (c :: rest) || charsContain needle rest

/-- Python `sub in s` for strings (substring containment). -/
def strContains (s sub : String) : Bool :=
  charsContain sub.toList s.toList

/-- Python `str.lower()`, as a character-wise map (the column names and
cell values involved are ASCII). -/
def pyLower (s : String) : String :=
  ⟨s.data.map Char.toLower⟩

/-- Python `str.strip()`: remove whitespace from both ends. -/
def pyStrip (s : String) : String :=
  ⟨((s.data.dropWhile Char.isWhitespace).reverse.dropWhile Char.isWhitespace).reverse⟩

/-- Condition of reset_passwd.py line 53: `'order_status' in col_name.lower()`
(the argument is the already-lowercased column name). -/
def orderStatusPat (cl : String) : Bool := strContains cl "order_status"

/-- Condition of line 55: `'setup_admin' in col_name.lower()`. -/
def setupAdminPat (cl : String) : Bool := strContains cl "setup_admin"

/-- Condition of lines 57 and 126: `'activation' in c and 'url' in c`. -/
def activationUrlPat (cl : String) : Bool :=
  strContains cl "activation" && strContains cl "url"

/-- Condition of line 59: `'status' in c and 'order' not in c`. -/
def statusPat (cl : String) : Bool :=
  strContains cl "status" && !(strContains cl "order")

/-- Condition of lines 61 and 124: `'password' in c and 'admin' in c`. -/
def adminPasswordPat (cl : String) : Bool :=
  strContains cl "password" && strContains cl "admin"

/-- The five role column indices resolved by `read_google_sheet`
(reset_passwd.py lines 45-62). -/
structure RoleIdx where
  order_status_index : Option Nat
  setup_admin_index : Option Nat
  activation_url_index : Option Nat
  status_index : Option Nat
  password_index : Option Nat
deriving DecidableEq

/-- The header-resolution loop of `read_google_sheet` (lines 52-62):
`for i, col_name in enumerate(header)` with an if/elif chain; a later
matching column overwrites an earlier one for the same role. -/
def resolveLoop (r : RoleIdx) (i : Nat) : List String → RoleIdx
  | [] => r
  | c :: rest =>
    let cl := pyLower c
    if orderStatusPat cl then
      resolveLoop { r with order_status_index := some i } (i + 1) rest
    else if setupAdminPat cl then
      resolveLoop { r with setup_admin_index := some i } (i + 1) rest
    else if activationUrlPat cl then
      resolveLoop { r with activation_url_index := some i } (i + 1) rest
    else if statusPat cl then
      resolveLoop { r with status_index := some i } (i + 1) rest
    else if adminPasswordPat cl then
      resolveLoop { r with password_index := some i } (i + 1) rest
    else resolveLoop r (i + 1) rest

/-- Up-front role resolution over a header (lines 45-62, starting from the
all-`None` state). -/
def resolveRoles (header : List String) : RoleIdx :=
  resolveLoop ⟨none, none, none, none, none⟩ 0 header

/-- The row filter of `read_google_sheet` (lines 79-86): length guard first
(short rows are rejected, not an error), then the four predicates. -/
def rowMatches (o s a st p : Nat) (row : List String) : Bool :=
  decide (Nat.max (Nat.max (Nat.max (Nat.max o s) a) st) p < row.length) &&
  (pyLower (row.getD o "") == "success") &&
  (pyLower (row.getD s "") == "success") &&
  (!(pyStrip (row.getD a "") == "")) &&
  ((pyStrip (row.getD st "") == "") || (pyLower (row.getD st "") == "empty"))

/-- `read_google_sheet` (lines 22-114) applied to an already-fetched and
parsed csv (the HTTP GET and csv parsing are the opaque transport): empty
dataset or a missing role column yields `none` (the Python `None, None`),
otherwise the header and the filtered rows. -/
def read_google_sheet (csv : List (List String)) :
    Option (List String × List (List String)) :=
  match csv with
  | [] => none
  | header :: rows =>
    let r := resolveRoles header
    match r.order_status_index, r.setup_admin_index, r.activation_url_index,
        r.status_index, r.password_index with
    | some o, some s, some a, some st, some p =>
        some (header, rows.filter (rowMatches o s a st p))
    | _, _, _, _, _ => none

/-- The per-record header loop of `extract_password_and_url`
(lines 123-127): a two-branch if/elif chain, later columns overwrite. -/
def extractLoop (p u : Option Nat) (i : Nat) : List String → Option Nat × Option Nat
  | [] => (p, u)
  | c :: rest =>
    let cl := pyLower c
    if adminPasswordPat cl then extractLoop (some i) u (i + 1) rest
    else if activationUrlPat cl then extractLoop p (some i) (i + 1) rest
    else extractLoop p u (i + 1) rest

/-- The column positions `extract_password_and_url` re-resolves per record. -/
def extract_cols (header : List String) : Option Nat × Option Nat :=
  extractLoop none none 0 header

/-- `extract_password_and_url` (lines 116-141): `none` models the Python
`None, None` when either column is missing; a short row yields `""`
(lines 134-135). -/
def extract_password_and_url (row header : List String) : Option (String × String) :=
  match extract_cols header with
  | (some pi, some ui) => some (row.getD pi "", row.getD ui "")
  | _ => none

/-- Rows whose extracted secret and URL are both non-empty (the condition
`if admin_password and activation_url` of line 361; a failed extraction is
falsy in Python). -/
def bothNonEmpty (header row : List String) : Bool :=
  match extract_password_and_url row header with
  | some (pw, u) => !(pw == "") && !(u == "")
  | none => false

/-- The per-record tuple built by `main` (lines 364-370):
(domain_name, admin_password, activation_url, row_index, total_rows). -/
structure DomainData where
  domain_name : String
  admin_password : String
  activation_url : String
  index : Nat
  total : Nat
deriving DecidableEq

/-- The dispatch-list construction loop of `main` (lines 350-371):
`for i, row in enumerate(rows, 1)`, skipping rows shorter than two cells
(which subsumes `not row`), naming the domain from column 0 with an
`Entry i` fallback, and keeping the row only when both extracted values
are truthy. -/
def buildLoop (header : List String) (total : Nat) (i : Nat) :
    List (List String) → List DomainData
  | [] => []
  | row :: rest =>
    if row.length < 2 then buildLoop header total (i + 1) rest
    else
      let dn := if row.getD 0 "" == "" then "Entry " ++ toString i else row.getD 0 ""
      match extract_password_and_url row header with
      | some (pw, u) =>
        if !(pw == "") && !(u == "") then
          ⟨dn, pw, u, i, total⟩ :: buildLoop header total (i + 1) rest
        else buildLoop header total (i + 1) rest
      | none => buildLoop header total (i + 1) rest

/-- `domain_data_list` as built by `main` from the filtered rows. -/
def buildDomainData (header : List String) (rows : List (List String)) :
    List DomainData :=
  buildLoop header rows.length 1 rows

/-- The fan-in tally of `main` (lines 399-411): one completed future per
dispatched record; `some b` models `future.result() == b`, `none` models a
future that raised (counted as failed, lines 407-409). -/
def tallyLoop (sc fc : Nat) : List (Option Bool) → Nat × Nat
  | [] => (sc, fc)
  | some true :: rest => tallyLoop (sc + 1) fc rest
  | some false :: rest => tallyLoop sc (fc + 1) rest
  | none :: rest => tallyLoop sc (fc + 1) rest

/-- One recorded call of the status write-back (`update_status_in_sheet`'s
arguments at the call sites, lines 263 and 270; `domain_name` is an
optional parameter defaulting to `None`). -/
structure ReportCall where
  row_index : Nat
  status : String
  domain : Option String
deriving DecidableEq

/-- Behaviour of the external page and browser for one executor run.
Boolean fields model whether the corresponding Python statement raises
an exception (a subclass of `Exception`); `confirmClickable` and
`submitClickable` model whether `WebDriverWait(...).until(clickable)`
succeeds within its bound for a given locator; `find` models
`driver.find_elements` for a given selector, returning element ids. -/
structure PageEnv where
  initThrows : Bool
  navThrows : Bool
  confirmClickable : String → Bool
  confirmClickThrows : Bool
  find : String → List Nat
  fillThrows : Bool
  submitClickable : String → Bool
  submitClickThrows : Bool
  quitThrows : Bool

/-- `google_confirm_selectors` (lines 167-175). -/
def google_confirm_selectors : List String :=
  ["input[type=\x27submit\x27][name=\x27confirm\x27][value=\x27I understand\x27]",
   "input[name=\x27confirm\x27][value=\x27I understand\x27]",
   "input[value=\x27I understand\x27]",
   "input[type=\x27submit\x27][id=\x27confirm\x27]",
   "input[id=\x27confirm\x27]",
   "input[class*=\x27MK9CEd\x27][class*=\x27MVpUfe\x27]",
   "input[jsname=\x27M2UYVd\x27]"]

/-- `password_selectors` (lines 199-204). -/
def password_selectors : List String :=
  ["input[type=\x27password\x27]",
   "input[name*=\x27password\x27]",
   "input[id*=\x27password\x27]",
   "input[placeholder*=\x27password\x27]"]

/-- `change_password_selectors` (lines 229-235). -/
def change_password_selectors : List String :=
  ["button:contains(\x27Change password\x27)",
   "input[value=\x27Change password\x27]",
   "button[type=\x27submit\x27]",
   ".btn-primary",
   "button:contains(\x27Submit\x27)"]

/-- The locator actually used in step 3 (lines 240-249): a `:contains`
selector is replaced by the fixed text-content XPath, any other selector
is used as a CSS selector. -/
def submitLocator (sel : String) : String :=
  if strContains sel ":contains" then
    "//button[contains(text(), \x27Change password\x27)]"
  else sel

/-- Step 2's accumulation (lines 206-212): `password_inputs.extend(...)`
over the selectors in order, with no deduplication. -/
def gatherPasswordInputs (env : PageEnv) : List Nat :=
  password_selectors.foldl (fun acc sel => acc ++ env.find sel) []

/-- The input validation of line 148: `if not url or not admin_password
or not domain_name`. -/
def validParams (url admin_password domain_name : String) : Bool :=
  !(url == "" || admin_password == "" || domain_name == "")

/-- How the try block of `process_password_change` ends: a Python
`return b` or an exception escaping to the `except Exception` handler. -/
inductive BodyResult where
  | ret (b : Bool)
  | exn
deriving DecidableEq

/-- Observable actions performed inside the try block before it ended:
status write-back calls issued and password fields filled (element ids,
first and second of the gathered list, lines 216-222). -/
structure BodyTrace where
  reports : List ReportCall
  filled : List Nat
deriving DecidableEq

/-- The try block of `process_password_change` (lines 146-265), transliterated:
validation, session creation, navigation, step 1 (first clickable confirm
selector or `return False`), step 2 (gather fields, require at least two,
fill the first two), step 3 (first clickable submit locator or
`return False`), then the success write-back and `return True`. -/
def runBody (url admin_password domain_name : String) (row_index : Nat)
    (env : PageEnv) : BodyResult × BodyTrace :=
  if !(validParams url admin_password domain_name) then (BodyResult.ret false, ⟨[], []⟩)
  else if env.initThrows then (BodyResult.exn, ⟨[], []⟩)
  else if env.navThrows then (BodyResult.exn, ⟨[], []⟩)
  else
    match google_confirm_selectors.find? env.confirmClickable with
    | none => (BodyResult.ret false, ⟨[], []⟩)
    | some _ =>
      if env.confirmClickThrows then (BodyResult.exn, ⟨[], []⟩)
      else
        let password_inputs := gatherPasswordInputs env
        if 2 ≤ password_inputs.length then
          if env.fillThrows then (BodyResult.exn, ⟨[], []⟩)
          else
            let filled := [password_inputs.getD 0 0, password_inputs.getD 1 0]
            match change_password_selectors.find?
                (fun sel => env.submitClickable (submitLocator sel)) with
            | none => (BodyResult.ret false, ⟨[], filled⟩)
            | some _ =>
              if env.submitClickThrows then (BodyResult.exn, ⟨[], filled⟩)
              else (BodyResult.ret true,
                    ⟨[⟨row_index, "success", some domain_name⟩], filled⟩)
        else (BodyResult.ret false, ⟨[], []⟩)

/-- The observable result of one `process_password_change` run. -/
structure ExecResult where
  result : Bool
  reports : List ReportCall
  filled : List Nat
  sessionOpened : Bool
  quitAttempted : Bool
deriving DecidableEq

/-- The `except Exception` handler (lines 267-271: error write-back, return
False) and the `finally` block (lines 273-280: quit whenever the driver was
assigned, itself guarded so a failing quit is swallowed), assembled around
the try block's outcome. -/
def assembleResult (row_index : Nat) (domain_name : String) (opened : Bool) :
    BodyResult × BodyTrace → ExecResult
  | (BodyResult.ret b, tr) =>
    { result := b, reports := tr.reports, filled := tr.filled,
      sessionOpened := opened, quitAttempted := opened }
  | (BodyResult.exn, tr) =>
    { result := false,
      reports := tr.reports ++ [⟨row_index, "error", some domain_name⟩],
      filled := tr.filled, sessionOpened := opened, quitAttempted := opened }

/-- `process_password_change` (lines 143-280). The driver is assigned
(session opened) exactly when validation passed and `Driver(...)` did not
raise; the `finally` block quits the driver exactly in that case. -/
def process_password_change (url admin_password domain_name : String)
    (row_index : Nat) (env : PageEnv) : ExecResult :=
  let opened := validParams url admin_password domain_name && !env.initThrows
  assembleResult row_index domain_name opened
    (runBody url admin_password domain_name row_index env)

/-- Behaviour of the status write-back transport for one call:
whether `requests.post` raises, and the HTTP status code it returns. -/
structure TransportEnv where
  postThrows : Bool
  statusCode : Nat

/-- The observable result of one `update_status_in_sheet` call. -/
structure UpdateResult where
  transportCalls : Nat
  raised : Bool
  acknowledged : Bool
  logLine : String
deriving DecidableEq

/-- `update_status_in_sheet` (lines 282-309): inside the lock, one
`requests.post`; a 200 response is acknowledged, any other code is logged
and discarded, and a raised transport exception is caught by the
`except` clause (line 308) — the function itself never raises. -/
def update_status_in_sheet (row_index : Nat) (status : String)
    (domain_name : Option String) (env : TransportEnv) : UpdateResult :=
  if env.postThrows then
    { transportCalls := 1, raised := false, acknowledged := false,
      logLine := "Error updating status in sheet" }
  else if env.statusCode == 200 then
    { transportCalls := 1, raised := false, acknowledged := true,
      logLine := "Status updated in sheet: Row " ++ toString row_index ++
        (match domain_name with
         | some dn => " (" ++ dn ++ ")"
         | none => "") ++ " -> " ++ status }
  else
    { transportCalls := 1, raised := false, acknowledged := false,
      logLine := "Failed to update status in sheet: " ++ toString env.statusCode }

/-- One record's full processing: the executor run followed by the
execution of its recorded write-back calls against the transport.  The
separation is faithful because `update_status_in_sheet` never raises and
its return value is ignored by the caller (lines 263 and 270). -/
def runRecord (url admin_password domain_name : String) (row_index : Nat)
    (penv : PageEnv) (tenv : TransportEnv) : ExecResult × List UpdateResult :=
  let r := process_password_change url admin_password domain_name row_index penv
  (r, r.reports.map (fun c => update_status_in_sheet c.row_index c.status c.domain tenv))

/-- `process_single_domain` (lines 311-333): prints the domain, the admin
password in clear text and the URL (lines 321-323, console output modelled
as a list of lines), skips the record when password or URL is empty, and
otherwise delegates to `process_password_change`. -/
def process_single_domain (d : DomainData) (env : PageEnv) :
    Bool × List ReportCall × List String :=
  let log := ["Domain: " ++ d.domain_name,
              "Admin Password: " ++ d.admin_password,
              "Activation URL: " ++ d.activation_url]
  if d.admin_password == "" || d.activation_url == "" then
    (false, [], log ++ ["Skipping " ++ d.domain_name ++ " - missing password or URL"])
  else
    let r := process_password_change d.activation_url d.admin_password
      d.domain_name d.index env
    (r.result, r.reports, log)

/-- Phase of one worker's `update_status_in_sheet` call with respect to the
shared `sheet_update_lock` (line 19): before the `with` block, holding the
lock (line 284), executing `requests.post` (line 297), done posting but
still holding, and after release. -/
inductive RPhase where
  | start
  | held
  | posting
  | posted
  | done
deriving DecidableEq

/-- Global state of `n` concurrent workers and the single shared lock. -/
structure LockState (n : Nat) where
  owner : Option (Fin n)
  phase : Fin n → RPhase

/-- All workers about to report, lock free. -/
def lockInit (n : Nat) : LockState n :=
  ⟨none, fun _ => RPhase.start⟩

/-- Interleaving semantics of `with sheet_update_lock` around the transport
call: a worker can acquire the free lock, start the post while holding it,
finish the post, and release on leaving the `with` block. -/
inductive LockStep (n : Nat) : LockState n → LockState n → Prop where
  | acquire (s : LockState n) (i : Fin n) (hp : s.phase i = RPhase.start)
      (ho : s.owner = none) :
      LockStep n s ⟨some i, Function.update s.phase i RPhase.held⟩
  | beginPost (s : LockState n) (i : Fin n) (hp : s.phase i = RPhase.held) :
      LockStep n s ⟨s.owner, Function.update s.phase i RPhase.posting⟩
  | endPost (s : LockState n) (i : Fin n) (hp : s.phase i = RPhase.posting) :
      LockStep n s ⟨s.owner, Function.update s.phase i RPhase.posted⟩
  | release (s : LockState n) (i : Fin n) (hp : s.phase i = RPhase.posted) :
      LockStep n s ⟨none, Function.update s.phase i RPhase.done⟩

/-- States reachable from the initial state by any interleaving. -/
inductive LockReach (n : Nat) : LockState n → Prop where
  | init : LockReach n (lockInit n)
  | step {s t : LockState n} : LockReach n s → LockStep n s t → LockReach n t

/-- Concurrency depth of the transport call: how many workers are inside
`requests.post` at once. -/
def postingCount {n : Nat} (s : LockState n) : Nat :=
  (Finset.univ.filter (fun i => s.phase i = RPhase.posting)).card

/-- The header of the specification's worked scenario (spec section 8). -/
def exHeader : List String :=
  ["domain", "order_status", "setup_admin", "activation_url", "status",
   "admin_password"]

/-- The qualifying row of the specification's worked scenario. -/
def exRowQ : List String :=
  ["acme.com", "success", "success", "https://x/y", "", "secret123"]

/-- A data row rejected by the filter (order status not success). -/
def exRowA : List String :=
  ["a.com", "fail", "success", "https://u1", "", "pw1"]

/-- A data row accepted by the filter. -/
def exRowB : List String :=
  ["b.com", "success", "success", "https://u2", "", "pw2"]

/-- A dataset whose first data row is removed by the filter and whose
second data row is kept. -/
def exCsv : List (List String) := [exHeader, exRowA, exRowB]

/-- A header accepted by the up-front resolution on which the per-record
re-resolution binds the secret column differently: the trailing column
name matches the status pattern in the up-front chain (which is tried
before the password pattern) but matches the password pattern in the
per-record chain. -/
def exHeaderDiv : List String :=
  ["domain", "order_status", "setup_admin", "activation_url",
   "admin_password", "admin_password_status"]

/-- A page on which no acknowledgment control matches any strategy. -/
def envNoAck : PageEnv :=
  { initThrows := false, navThrows := false,
    confirmClickable := fun _ => false, confirmClickThrows := false,
    find := fun _ => [], fillThrows := false,
    submitClickable := fun _ => false, submitClickThrows := false,
    quitThrows := false }

/-- A page with a single password field (element id 7) that matches two of
the locating strategies, and on which every control is clickable. -/
def envDupField : PageEnv :=
  { initThrows := false, navThrows := false,
    confirmClickable := fun _ => true, confirmClickThrows := false,
    find := fun sel => if strContains sel "type" then [7]
      else if strContains sel "name" then [7] else [],
    fillThrows := false,
    submitClickable := fun _ => true, submitClickThrows := false,
    quitThrows := false }

/-- A page on which the whole flow succeeds with two distinct fields. -/
def envHappy : PageEnv :=
  { initThrows := false, navThrows := false,
    confirmClickable := fun _ => true, confirmClickThrows := false,
    find := fun sel => if strContains sel "type" then [4, 5] else [],
    fillThrows := false,
    submitClickable := fun _ => true, submitClickThrows := false,
    quitThrows := false }

/-- A page whose navigation step raises an exception. -/
def envNavThrow : PageEnv := { envHappy with navThrows := true }

/-- The single dispatched record of the specification's worked scenario. -/
def exDD : DomainData := ⟨"acme.com", "secret123", "https://x/y", 1, 1⟩

/-- Whether the up-front resolution accepted a header: all five role
columns resolved (the validation of lines 64-76). -/
def headerAccepted (header : List String) : Bool :=
  (resolveRoles header).order_status_index.isSome &&
  (resolveRoles header).setup_admin_index.isSome &&
  (resolveRoles header).activation_url_index.isSome &&
  (resolveRoles header).status_index.isSome &&
  (resolveRoles header).password_index.isSome

/-- A column name on which the two resolution chains cannot disagree: if it
matches the per-record password pattern it matches none of the patterns the
up-front chain tries first, and likewise for the activation-url pattern. -/
def alignedCol (c : String) : Prop :=
  (adminPasswordPat (pyLower c) = true →
    orderStatusPat (pyLower c) = false ∧ setupAdminPat (pyLower c) = false ∧
    activationUrlPat (pyLower c) = false ∧ statusPat (pyLower c) = false) ∧
  (activationUrlPat (pyLower c) = true →
    orderStatusPat (pyLower c) = false ∧ setupAdminPat (pyLower c) = false)

instance (c : String) : Decidable (alignedCol c) := by
  unfold alignedCol
  infer_instance

/-- Headers all of whose column names are aligned in the above sense. -/
def patternsAligned (header : List String) : Prop :=
  ∀ c ∈ header, alignedCol c

instance (header : List String) : Decidable (patternsAligned header) := by
  unfold patternsAligned
  infer_instance

/-- C3: for every row and every resolved role mapping, the filter accepts
the row iff the four predicates of spec section 4.2 hold simultaneously
(order-status and setup-status equal "success" case-insensitively, the
activation url is non-empty after trimming, the current status is empty
after trimming or equals "empty" case-insensitively); and any row whose
length is at most the maximum required column index is rejected (returns
false) rather than erroring. -/
theorem C3_filter_iff (row : List String) (o s a st p : Nat) :
    (Nat.max (Nat.max (Nat.max (Nat.max o s) a) st) p < row.length →
      (rowMatches o s a st p row = true ↔
        (pyLower (row.getD o "") = "success" ∧
         pyLower (row.getD s "") = "success" ∧
         pyStrip (row.getD a "") ≠ "" ∧
         (pyStrip (row.getD st "") = "" ∨ pyLower (row.getD st "") = "empty")))) ∧
    (row.length ≤ Nat.max (Nat.max (Nat.max (Nat.max o s) a) st) p →
      rowMatches o s a st p row = false) := by
  constructor
  · intro h
    simp only [rowMatches, Bool.and_eq_true, Bool.or_eq_true, beq_iff_eq,
      Bool.not_eq_true', beq_eq_false_iff_ne, ne_eq, decide_eq_true_eq]
    tauto
  · intro h
    have h2 : ¬ Nat.max (Nat.max (Nat.max (Nat.max o s) a) st) p < row.length :=
      Nat.not_lt.mpr h
    simp [rowMatches, h2]

/-- Witness for C3: the specification's worked scenario row is accepted. -/
theorem C3_filter_iff_witness : rowMatches 1 2 3 4 5 exRowQ = true :=
  ((C3_filter_iff exRowQ 1 2 3 4 5).1 (by decide)).mpr (by decide)

/-- The tally loop counts every completed future exactly once. -/
theorem tallyLoop_sum (outs : List (Option Bool)) : ∀ sc fc,
    (tallyLoop sc fc outs).1 + (tallyLoop sc fc outs).2 = sc + fc + outs.length := by
  induction outs with
  | nil => intro sc fc; simp [tallyLoop]
  | cons head rest ih =>
    intro sc fc
    match head with
    | some true =>
      have h := ih (sc + 1) fc
      simp only [tallyLoop, List.length_cons]
      omega
    | some false =>
      have h := ih sc (fc + 1)
      simp only [tallyLoop, List.length_cons]
      omega
    | none =>
      have h := ih sc (fc + 1)
      simp only [tallyLoop, List.length_cons]
      omega

/-- Invariant of the per-record resolution loop: accumulators stay below
the running position, so the two resolved columns are always distinct. -/
theorem extractLoop_ne (header : List String) : ∀ p u i,
    (∀ a, p = some a → a < i) → (∀ b, u = some b → b < i) →
    (∀ a b, p = some a → u = some b → a ≠ b) →
    ∀ a b, (extractLoop p u i header).1 = some a →
      (extractLoop p u i header).2 = some b → a ≠ b := by
  induction header with
  | nil =>
    intro p u i _ _ hne a b ha hb
    simp only [extractLoop] at ha hb
    exact hne a b ha hb
  | cons c rest ih =>
    intro p u i hp hu hne a b ha hb
    simp only [extractLoop] at ha hb
    by_cases h1 : adminPasswordPat (pyLower c) = true
    · rw [if_pos h1] at ha hb
      refine ih (some i) u (i + 1) ?_ ?_ ?_ a b ha hb
      · intro x hx
        cases hx
        omega
      · intro x hx
        exact Nat.lt_succ_of_lt (hu x hx)
      · intro x y hx hy
        cases hx
        have := hu y hy
        omega
    · rw [if_neg h1] at ha hb
      by_cases h2 : activationUrlPat (pyLower c) = true
      · rw [if_pos h2] at ha hb
        refine ih p (some i) (i + 1) ?_ ?_ ?_ a b ha hb
        · intro x hx
          exact Nat.lt_succ_of_lt (hp x hx)
        · intro x hx
          cases hx
          omega
        · intro x y hx hy
          cases hy
          have := hp x hx
          omega
      · rw [if_neg h2] at ha hb
        refine ih p u (i + 1) ?_ ?_ hne a b ha hb
        · intro x hx
          exact Nat.lt_succ_of_lt (hp x hx)
        · intro x hx
          exact Nat.lt_succ_of_lt (hu x hx)

/-- The two columns `extract_password_and_url` resolves are distinct. -/
theorem extract_cols_ne (header : List String) (a b : Nat)
    (ha : (extract_cols header).1 = some a) (hb : (extract_cols header).2 = some b) :
    a ≠ b :=
  extractLoop_ne header none none 0
    (fun x hx => by cases hx) (fun x hx => by cases hx)
    (fun x y hx _ => by cases hx) a b ha hb

/-- A row shorter than two cells can never have both extracted values
non-empty, because the two resolved columns are distinct positions. -/
theorem bothNonEmpty_short (header row : List String) (h : row.length < 2) :
    bothNonEmpty header row = false := by
  rcases hc : extract_cols header with ⟨p, u⟩
  cases p with
  | none => simp [bothNonEmpty, extract_password_and_url, hc]
  | some pi =>
    cases u with
    | none => simp [bothNonEmpty, extract_password_and_url, hc]
    | some ui =>
      have hne : pi ≠ ui := by
        refine extract_cols_ne header pi ui ?_ ?_ <;> rw [hc]
      simp only [bothNonEmpty, extract_password_and_url, hc]
      rcases Nat.lt_or_ge pi row.length with h1 | h1
      · rcases Nat.lt_or_ge ui row.length with h2 | h2
        · omega
        · rw [List.getD_eq_default _ _ h2]
          simp
      · rw [List.getD_eq_default _ _ h1]
        simp

/-- Unfolding: the construction loop skips a short row (line 352). -/
theorem buildLoop_cons_short (header : List String) (total i : Nat)
    (row : List String) (rest : List (List String)) (h : row.length < 2) :
    buildLoop header total i (row :: rest) = buildLoop header total (i + 1) rest := by
  simp [buildLoop, h]

/-- Unfolding: the construction loop skips a row whose extraction failed. -/
theorem buildLoop_cons_none (header : List String) (total i : Nat)
    (row : List String) (rest : List (List String)) (h : ¬ row.length < 2)
    (hpu : extract_password_and_url row header = none) :
    buildLoop header total i (row :: rest) = buildLoop header total (i + 1) rest := by
  simp [buildLoop, h, hpu]

/-- Unfolding: the construction loop skips a row with an empty value. -/
theorem buildLoop_cons_skip (header : List String) (total i : Nat)
    (row : List String) (rest : List (List String)) (pw u : String)
    (h : ¬ row.length < 2) (hpu : extract_password_and_url row header = some (pw, u))
    (hk : (!(pw == "") && !(u == "")) = false) :
    buildLoop header total i (row :: rest) = buildLoop header total (i + 1) rest := by
  simp [buildLoop, h, hpu, hk]

/-- Unfolding: the construction loop keeps a row with both values non-empty. -/
theorem buildLoop_cons_keep (header : List String) (total i : Nat)
    (row : List String) (rest : List (List String)) (pw u : String)
    (h : ¬ row.length < 2) (hpu : extract_password_and_url row header = some (pw, u))
    (hk : (!(pw == "") && !(u == "")) = true) :
    buildLoop header total i (row :: rest) =
      ⟨if row.getD 0 "" == "" then "Entry " ++ toString i else row.getD 0 "",
        pw, u, i, total⟩ :: buildLoop header total (i + 1) rest := by
  simp [buildLoop, h, hpu, hk]

/-- The dispatch list keeps exactly the rows whose extracted secret and URL
are both non-empty (the short-row skip of line 352 removes nothing more,
since a short row can never have both values non-empty). -/
theorem buildLoop_length (header : List String) (rows : List (List String)) :
    ∀ total i, (buildLoop header total i rows).length =
      (rows.filter (fun r => bothNonEmpty header r)).length := by
  induction rows with
  | nil => intro total i; rfl
  | cons row rest ih =>
    intro total i
    by_cases hlen : row.length < 2
    · have hb : bothNonEmpty header row = false := bothNonEmpty_short header row hlen
      rw [buildLoop_cons_short header total i row rest hlen]
      simp [List.filter_cons, hb, ih total (i + 1)]
    · rcases hpu : extract_password_and_url row header with _ | ⟨pw, u⟩
      · have hb : bothNonEmpty header row = false := by
          simp [bothNonEmpty, hpu]
        rw [buildLoop_cons_none header total i row rest hlen hpu]
        simp [List.filter_cons, hb, ih total (i + 1)]
      · have hb : bothNonEmpty header row = (!(pw == "") && !(u == "")) := by
          simp [bothNonEmpty, hpu]
        cases hk : (!(pw == "") && !(u == "")) with
        | false =>
          rw [buildLoop_cons_skip header total i row rest pw u hlen hpu hk]
          simp [List.filter_cons, hb, hk, ih total (i + 1)]
        | true =>
          rw [buildLoop_cons_keep header total i row rest pw u hlen hpu hk]
          simp [List.filter_cons, hb, hk, ih total (i + 1)]

/-- Position and content of every entry of the dispatch-construction loop:
the stored 1-based index points back into the list the loop walked. -/
theorem buildLoop_mem (header : List String) (rows : List (List String)) :
    ∀ total i d, d ∈ buildLoop header total i rows →
      i ≤ d.index ∧ d.index < i + rows.length ∧ d.total = total ∧
      extract_password_and_url (rows.getD (d.index - i) []) header =
        some (d.admin_password, d.activation_url) ∧
      d.admin_password ≠ "" ∧ d.activation_url ≠ "" := by
  induction rows with
  | nil =>
    intro total i d hd
    simp [buildLoop] at hd
  | cons row rest ih =>
    intro total i d
    have tailStep : d ∈ buildLoop header total (i + 1) rest →
        i ≤ d.index ∧ d.index < i + (row :: rest).length ∧ d.total = total ∧
        extract_password_and_url ((row :: rest).getD (d.index - i) []) header =
          some (d.admin_password, d.activation_url) ∧
        d.admin_password ≠ "" ∧ d.activation_url ≠ "" := by
      intro hd2
      obtain ⟨g1, g2, g3, g4, g5⟩ := ih total (i + 1) d hd2
      have hgt : i < d.index := g1
      have hsub : d.index - i = (d.index - (i + 1)) + 1 := by omega
      refine ⟨by omega, by simp only [List.length_cons]; omega, g3, ?_, g5⟩
      rw [hsub, List.getD_cons_succ]
      exact g4
    intro hd
    by_cases hlen : row.length < 2
    · rw [buildLoop_cons_short header total i row rest hlen] at hd
      exact tailStep hd
    · rcases hpu : extract_password_and_url row header with _ | ⟨pw, u⟩
      · rw [buildLoop_cons_none header total i row rest hlen hpu] at hd
        exact tailStep hd
      · cases hk : (!(pw == "") && !(u == "")) with
        | false =>
          rw [buildLoop_cons_skip header total i row rest pw u hlen hpu hk] at hd
          exact tailStep hd
        | true =>
          rw [buildLoop_cons_keep header total i row rest pw u hlen hpu hk] at hd
          rcases List.mem_cons.mp hd with heq | hd2
          · subst heq
            have hpw : pw ≠ "" ∧ u ≠ "" := by
              simp only [Bool.and_eq_true, Bool.not_eq_true', beq_eq_false_iff_ne,
                ne_eq] at hk
              exact hk
            refine ⟨Nat.le_refl i, by simp only [List.length_cons]; omega, rfl, ?_,
              hpw.1, hpw.2⟩
            show extract_password_and_url ((row :: rest).getD (i - i) []) header =
              some (pw, u)
            rw [Nat.sub_self, List.getD_cons_zero]
            exact hpu
          · exact tailStep hd2


/-- C2 (amended): the 1-based row index sent in the status write-back is
the record's position in the filtered row list handed to the dispatcher
(not its position in the unfiltered source dataset): the stored index
points back to the filtered row the record was built from. -/
theorem C2_index_is_filtered_position (header : List String)
    (rows : List (List String)) (d : DomainData)
    (hd : d ∈ buildDomainData header rows) :
    1 ≤ d.index ∧ d.index ≤ rows.length ∧ d.total = rows.length ∧
    extract_password_and_url (rows.getD (d.index - 1) []) header =
      some (d.admin_password, d.activation_url) := by
  obtain ⟨g1, g2, g3, g4, _, _⟩ := buildLoop_mem header rows rows.length 1 d hd
  exact ⟨g1, by omega, g3, g4⟩

/-- Witness for C2's amended statement at the scenario dataset. -/
theorem C2_index_is_filtered_position_witness :
    1 ≤ exDD.index ∧ exDD.index ≤ [exRowQ].length ∧ exDD.total = [exRowQ].length ∧
    extract_password_and_url ([exRowQ].getD (exDD.index - 1) []) exHeader =
      some (exDD.admin_password, exDD.activation_url) :=
  C2_index_is_filtered_position exHeader [exRowQ] exDD (by decide)

/-- Counterexample to C2 as stated: in a dataset whose first data row is
removed by the filter, the only dispatched record comes from the source's
second data row (`exCsv.getD 2 []`), yet the row index sent in its
write-back is 1, not its stable source position 2. -/
theorem C2_cex :
    read_google_sheet exCsv = some (exHeader, [exRowB]) ∧
    buildDomainData exHeader [exRowB] = [⟨"b.com", "pw2", "https://u2", 1, 1⟩] ∧
    exCsv.getD 2 [] = exRowB ∧ exCsv.getD 1 [] ≠ exRowB := by
  decide

/-- On aligned headers the per-record loop tracks exactly the password and
activation-url fields of the up-front loop, step by step. -/
theorem resolveExtract_loop (header : List String)
    (hal : ∀ c ∈ header, alignedCol c) :
    ∀ r i, extractLoop r.password_index r.activation_url_index i header =
      ((resolveLoop r i header).password_index,
       (resolveLoop r i header).activation_url_index) := by
  induction header with
  | nil => intro r i; simp [extractLoop, resolveLoop]
  | cons c rest ih =>
    intro r i
    have hc := hal c (List.mem_cons_self c rest)
    have hrest : ∀ x ∈ rest, alignedCol x := fun x hx => hal x (List.mem_cons_of_mem c hx)
    by_cases h1 : adminPasswordPat (pyLower c) = true
    · obtain ⟨ho, hs, ha, hst⟩ := hc.1 h1
      have hstep := ih hrest { r with password_index := some i } (i + 1)
      simp only [extractLoop, resolveLoop, h1, ho, hs, ha, hst] at hstep ⊢
      simpa using hstep
    · by_cases h2 : activationUrlPat (pyLower c) = true
      · obtain ⟨ho, hs⟩ := hc.2 h2
        have hstep := ih hrest { r with activation_url_index := some i } (i + 1)
        simp only [extractLoop, resolveLoop, h1, h2, ho, hs] at hstep ⊢
        simpa using hstep
      · by_cases h3 : orderStatusPat (pyLower c) = true
        · have hstep := ih hrest { r with order_status_index := some i } (i + 1)
          simp only [extractLoop, resolveLoop, h1, h2, h3] at hstep ⊢
          simpa using hstep
        · by_cases h4 : setupAdminPat (pyLower c) = true
          · have hstep := ih hrest { r with setup_admin_index := some i } (i + 1)
            simp only [extractLoop, resolveLoop, h1, h2, h3, h4] at hstep ⊢
            simpa using hstep
          · by_cases h5 : statusPat (pyLower c) = true
            · have hstep := ih hrest { r with status_index := some i } (i + 1)
              simp only [extractLoop, resolveLoop, h1, h2, h3, h4, h5] at hstep ⊢
              simpa using hstep
            · have hstep := ih hrest r (i + 1)
              simp only [extractLoop, resolveLoop, h1, h2, h3, h4, h5] at hstep ⊢
              simpa using hstep

/-- C6 (amended): on every header the up-front resolution accepts in which
no column name matches both a per-record pattern and one of the patterns
tried earlier in the up-front chain, re-resolving per record yields exactly
the up-front secret and URL column indices.  (Alignment is needed: see the
counterexample.) -/
theorem C6_resolution_agreement (header : List String)
    (_hacc : headerAccepted header = true) (hal : patternsAligned header) :
    extract_cols header =
      ((resolveRoles header).password_index,
       (resolveRoles header).activation_url_index) := by
  have h := resolveExtract_loop header hal ⟨none, none, none, none, none⟩ 0
  simpa [extract_cols, resolveRoles] using h

/-- Witness for C6's amended statement: the scenario header is accepted,
aligned, and both resolutions give password column 5 and URL column 3. -/
theorem C6_resolution_agreement_witness :
    extract_cols exHeader =
      ((resolveRoles exHeader).password_index,
       (resolveRoles exHeader).activation_url_index) :=
  C6_resolution_agreement exHeader (by decide) (by decide)

/-- Counterexample to C6 as stated: `exHeaderDiv` is accepted by the
up-front resolution (all five roles resolve), its up-front secret column is
4, yet the per-record re-resolution binds the secret column to 5 — the
trailing column name matches the status pattern up front but the password
pattern per record. -/
theorem C6_cex :
    headerAccepted exHeaderDiv = true ∧
    (resolveRoles exHeaderDiv).password_index = some 4 ∧
    (extract_cols exHeaderDiv).1 = some 5 ∧
    (extract_cols exHeaderDiv).1 ≠ (resolveRoles exHeaderDiv).password_index := by
  decide

/-- Every run of the try block ends in one of three shapes: a plain failure
return with no write-back recorded, an exception with no write-back
recorded, or the success return with exactly the success write-back. -/
theorem runBody_cases (url admin_password domain_name : String)
    (row_index : Nat) (env : PageEnv) :
    ((runBody url admin_password domain_name row_index env).1 = BodyResult.ret false ∧
      (runBody url admin_password domain_name row_index env).2.reports = []) ∨
    ((runBody url admin_password domain_name row_index env).1 = BodyResult.exn ∧
      (runBody url admin_password domain_name row_index env).2.reports = []) ∨
    ((runBody url admin_password domain_name row_index env).1 = BodyResult.ret true ∧
      (runBody url admin_password domain_name row_index env).2.reports =
        [⟨row_index, "success", some domain_name⟩]) := by
  simp only [runBody]
  repeat' split
  all_goals simp

/-- C1 (amended): each dispatched record leads to at most one status
write-back call, never two: exactly one on the success path and on the
exception path, and none on the non-throwing step-failure paths.  (The
original claim of exactly one on every path fails: see the
counterexample.) -/
theorem C1_at_most_one_report (url admin_password domain_name : String)
    (row_index : Nat) (env : PageEnv) :
    (process_password_change url admin_password domain_name row_index env).reports.length ≤ 1 ∧
    ((process_password_change url admin_password domain_name row_index env).result = true →
      (process_password_change url admin_password domain_name row_index env).reports =
        [⟨row_index, "success", some domain_name⟩]) ∧
    ((runBody url admin_password domain_name row_index env).1 = BodyResult.exn →
      (process_password_change url admin_password domain_name row_index env).reports =
        [⟨row_index, "error", some domain_name⟩]) := by
  have hc := runBody_cases url admin_password domain_name row_index env
  rcases hb : runBody url admin_password domain_name row_index env with ⟨res, tr⟩
  rw [hb] at hc
  unfold process_password_change
  rw [hb]
  rcases hc with ⟨h1, h2⟩ | ⟨h1, h2⟩ | ⟨h1, h2⟩ <;>
    simp only at h1 h2 <;> subst h1 <;> simp [assembleResult, h2]

/-- Counterexample to C1 as stated: on a page where no acknowledgment
control matches any strategy, the executor returns false and releases the
session but reports zero outcomes — not the claimed exactly one. -/
theorem C1_cex :
    (process_password_change "https://x" "pw" "acme.com" 1 envNoAck).result = false ∧
    (process_password_change "https://x" "pw" "acme.com" 1 envNoAck).reports = [] ∧
    (process_password_change "https://x" "pw" "acme.com" 1 envNoAck).quitAttempted = true := by
  decide

/-- Witness for C1's amended statement: on a fully successful page, at most
one report, and the success path reports exactly once. -/
theorem C1_at_most_one_report_witness :
    (process_password_change "https://x" "pw" "acme.com" 1 envHappy).reports.length ≤ 1 ∧
    (process_password_change "https://x" "pw" "acme.com" 1 envHappy).reports =
      [⟨1, "success", some "acme.com"⟩] :=
  ⟨(C1_at_most_one_report "https://x" "pw" "acme.com" 1 envHappy).1,
   (C1_at_most_one_report "https://x" "pw" "acme.com" 1 envHappy).2.1 (by decide)⟩

/-- C5: on every input and every page behaviour, the session is released on
every exit path on which it was opened, and an exception raised anywhere in
the step sequence is converted into a failure result with the error
write-back appended — no exception escapes the executor. -/
theorem C5_session_release (url admin_password domain_name : String)
    (row_index : Nat) (env : PageEnv) :
    ((process_password_change url admin_password domain_name row_index env).sessionOpened = true →
      (process_password_change url admin_password domain_name row_index env).quitAttempted = true) ∧
    ((runBody url admin_password domain_name row_index env).1 = BodyResult.exn →
      (process_password_change url admin_password domain_name row_index env).result = false ∧
      (process_password_change url admin_password domain_name row_index env).reports =
        (runBody url admin_password domain_name row_index env).2.reports ++
          [⟨row_index, "error", some domain_name⟩]) := by
  rcases hb : runBody url admin_password domain_name row_index env with ⟨res, tr⟩
  unfold process_password_change
  rw [hb]
  cases res with
  | ret b => simp [assembleResult]
  | exn => simp [assembleResult]

/-- Witness for C5: on a page whose navigation raises, the session is
still released and the run converts to a failure with the error report. -/
theorem C5_session_release_witness :
    (process_password_change "https://x" "pw" "acme.com" 1 envNavThrow).quitAttempted = true ∧
    (process_password_change "https://x" "pw" "acme.com" 1 envNavThrow).result = false ∧
    (process_password_change "https://x" "pw" "acme.com" 1 envNavThrow).reports =
      (runBody "https://x" "pw" "acme.com" 1 envNavThrow).2.reports ++
        [⟨1, "error", some "acme.com"⟩] :=
  ⟨(C5_session_release "https://x" "pw" "acme.com" 1 envNavThrow).1 (by decide),
   (C5_session_release "https://x" "pw" "acme.com" 1 envNavThrow).2 (by decide)⟩

/-- C7 (amended): the candidate secret-entry fields gathered across the
locating strategies are concatenated without deduplication; the step fails
(no success, nothing filled) unless at least two entries were gathered
counting multiplicity, and when it proceeds the first two entries — which
may be the same field — are the ones cleared and filled with the secret.
(The claimed deduplication and two-distinct-fields requirement fail: see
the counterexample.) -/
theorem C7_fill_first_two (url admin_password domain_name : String)
    (row_index : Nat) (env : PageEnv)
    (hv : validParams url admin_password domain_name = true)
    (h1 : env.initThrows = false) (h2 : env.navThrows = false)
    (hc : (google_confirm_selectors.find? env.confirmClickable).isSome = true)
    (h3 : env.confirmClickThrows = false) (h4 : env.fillThrows = false) :
    ((gatherPasswordInputs env).length < 2 →
      (process_password_change url admin_password domain_name row_index env).result = false ∧
      (process_password_change url admin_password domain_name row_index env).filled = []) ∧
    (2 ≤ (gatherPasswordInputs env).length →
      (process_password_change url admin_password domain_name row_index env).filled =
        [(gatherPasswordInputs env).getD 0 0, (gatherPasswordInputs env).getD 1 0]) := by
  rcases hfc : google_confirm_selectors.find? env.confirmClickable with _ | sel
  · rw [hfc] at hc
    simp at hc
  · unfold process_password_change runBody
    rw [hfc]
    simp only [hv, h1, h2, h3, h4, Bool.not_true, Bool.false_eq_true, if_false]
    constructor
    · intro hlen
      have hnot : ¬ 2 ≤ (gatherPasswordInputs env).length := by omega
      simp [hnot, assembleResult]
    · intro hlen
      simp only [hlen, if_true]
      rcases hsf : change_password_selectors.find?
          (fun s2 => env.submitClickable (submitLocator s2)) with _ | s3
      · simp [assembleResult]
      · cases hst : env.submitClickThrows <;> simp [hst, assembleResult]

/-- Counterexample to C7 as stated: on `envDupField` the gathered list is
the one field twice, its deduplication has length one, yet the step
proceeds (the whole run succeeds) and fills the same field twice. -/
theorem C7_cex :
    gatherPasswordInputs envDupField = [7, 7] ∧
    (gatherPasswordInputs envDupField).dedup = [7] ∧
    (process_password_change "https://x" "pw" "acme.com" 1 envDupField).result = true ∧
    (process_password_change "https://x" "pw" "acme.com" 1 envDupField).filled = [7, 7] := by
  decide

/-- Witness for C7's amended statement on the fully successful page. -/
theorem C7_fill_first_two_witness :
    (process_password_change "https://x" "pw" "acme.com" 1 envHappy).filled =
      [(gatherPasswordInputs envHappy).getD 0 0, (gatherPasswordInputs envHappy).getD 1 0] :=
  (C7_fill_first_two "https://x" "pw" "acme.com" 1 envHappy (by decide) (by decide)
    (by decide) (by decide) (by decide) (by decide)).2 (by decide)

/-- C8: every status write-back call performs exactly one transport call,
never raises and never retries, whatever the transport does; and the
executor's result for a record — its contribution to the success/failure
tally — is identical under any two transport behaviours. -/
theorem C8_writeback_contained (row_index : Nat) (status : String)
    (domain_name : Option String) (tenv : TransportEnv)
    (url pw dn : String) (ridx : Nat) (penv : PageEnv) (t1 t2 : TransportEnv) :
    (update_status_in_sheet row_index status domain_name tenv).raised = false ∧
    (update_status_in_sheet row_index status domain_name tenv).transportCalls = 1 ∧
    (runRecord url pw dn ridx penv t1).1 = (runRecord url pw dn ridx penv t2).1 := by
  refine ⟨?_, ?_, rfl⟩ <;>
    (unfold update_status_in_sheet; repeat' split) <;> rfl

/-- The lock invariant: any worker holding, posting or done posting under
the lock is the recorded owner. -/
theorem lockReach_owner {n : Nat} {s : LockState n} (h : LockReach n s) :
    ∀ i : Fin n, (s.phase i = RPhase.held ∨ s.phase i = RPhase.posting ∨
      s.phase i = RPhase.posted) → s.owner = some i := by
  induction h with
  | init =>
    intro i hi
    simp [lockInit] at hi
  | step hr hs ih =>
    cases hs with
    | acquire j hp ho =>
      intro i hi
      by_cases hij : i = j
      · subst hij
        rfl
      · simp only [Function.update_noteq hij] at hi
        have h2 := ih i hi
        rw [ho] at h2
        exact absurd h2 (by simp)
    | beginPost j hp =>
      intro i hi
      by_cases hij : i = j
      · subst hij
        exact ih i (Or.inl hp)
      · simp only [Function.update_noteq hij] at hi
        exact ih i hi
    | endPost j hp =>
      intro i hi
      by_cases hij : i = j
      · subst hij
        exact ih i (Or.inr (Or.inl hp))
      · simp only [Function.update_noteq hij] at hi
        exact ih i hi
    | release j hp =>
      intro i hi
      by_cases hij : i = j
      · subst hij
        simp only [Function.update_same] at hi
        rcases hi with h | h | h <;> exact absurd h (by simp)
      · simp only [Function.update_noteq hij] at hi
        have h1 := ih i hi
        have h2 := ih j (Or.inr (Or.inr hp))
        rw [h1] at h2
        exact absurd (Option.some.inj h2) hij

/-- C9: in every reachable interleaving of any number of workers, at most
one worker is inside the status-reporter transport call at any instant —
the shared lock serializes the write-backs, so the concurrency depth of
the transport never exceeds one. -/
theorem C9_posting_depth {n : Nat} (s : LockState n) (h : LockReach n s) :
    postingCount s ≤ 1 := by
  unfold postingCount
  refine Finset.card_le_one.mpr ?_
  intro a ha b hb
  simp only [Finset.mem_filter, Finset.mem_univ, true_and] at ha hb
  have h1 := lockReach_owner h a (Or.inr (Or.inl ha))
  have h2 := lockReach_owner h b (Or.inr (Or.inl hb))
  rw [h1] at h2
  exact Option.some.inj h2

/-- Witness for C9 at a concrete reachable state of two workers in which
worker 0 has acquired the lock and entered the transport call. -/
theorem C9_posting_depth_witness :
    postingCount (⟨some 0, Function.update
      (Function.update (fun _ => RPhase.start) 0 RPhase.held) 0 RPhase.posting⟩ :
        LockState 2) ≤ 1 :=
  C9_posting_depth _
    (LockReach.step
      (LockReach.step LockReach.init (LockStep.acquire (lockInit 2) 0 rfl rfl))
      (LockStep.beginPost
        ⟨some 0, Function.update (fun _ => RPhase.start) 0 RPhase.held⟩ 0 (by decide)))

/-- Left-cancellation of string concatenation. -/
theorem string_append_left_cancel : ∀ {a b c : String}, a ++ b = a ++ c → b = c := by
  intro ⟨da⟩ ⟨db⟩ ⟨dc⟩ h
  have h2 : da ++ db = da ++ dc := congrArg String.data h
  exact congrArg String.mk (List.append_cancel_left h2)

/-- The second console line of `process_single_domain` is the clear-text
admin password, on both the skip path and the processing path. -/
theorem psd_log_password_line (d : DomainData) (env : PageEnv) :
    ((process_single_domain d env).2.2).getD 1 "" =
      "Admin Password: " ++ d.admin_password := by
  unfold process_single_domain
  split <;> rfl

/-- C10: the console output is not independent of the secrets — two runs
identical in every input except one record's admin password produce
different console output (the password is printed in clear text). -/
theorem C10_log_depends_on_secret (dn u : String) (i t : Nat) (p1 p2 : String)
    (env : PageEnv) (hne : p1 ≠ p2) :
    (process_single_domain ⟨dn, p1, u, i, t⟩ env).2.2 ≠
      (process_single_domain ⟨dn, p2, u, i, t⟩ env).2.2 := by
  intro hEq
  apply hne
  have h1 := psd_log_password_line ⟨dn, p1, u, i, t⟩ env
  have h2 := psd_log_password_line ⟨dn, p2, u, i, t⟩ env
  rw [hEq] at h1
  rw [h2] at h1
  exact (string_append_left_cancel h1).symm

/-- Witness for C10 at two concrete runs differing only in the secret. -/
theorem C10_log_depends_on_secret_witness :
    (process_single_domain ⟨"acme.com", "pw1", "https://x", 1, 1⟩ envHappy).2.2 ≠
      (process_single_domain ⟨"acme.com", "pw2", "https://x", 1, 1⟩ envHappy).2.2 :=
  C10_log_depends_on_secret "acme.com" "https://x" 1 1 "pw1" "pw2" envHappy (by decide)

/-- C4: when the run is not interrupted, every dispatched record's future
completes exactly once (with a boolean result or an exception), so the
final success count plus failure count equals the number of qualifying
records whose extracted secret and URL were both non-empty. -/
theorem C4_tally_conservation (header : List String) (rows : List (List String))
    (outcomes : List (Option Bool))
    (h : outcomes.length = (buildDomainData header rows).length) :
    (tallyLoop 0 0 outcomes).1 + (tallyLoop 0 0 outcomes).2 =
      (rows.filter (fun r => bothNonEmpty header r)).length := by
  rw [tallyLoop_sum, h, buildDomainData, buildLoop_length]
  simp

/-- Witness for C4: the scenario dataset dispatches one record; one
completed future gives a tally summing to one. -/
theorem C4_tally_conservation_witness :
    (tallyLoop 0 0 [some true]).1 + (tallyLoop 0 0 [some true]).2 =
      ([exRowQ].filter (fun r => bothNonEmpty exHeader r)).length :=
  C4_tally_conservation exHeader [exRowQ] [some true] (by decide)
